import Mathlib

/-!
Shallow embedding of `src/js/sales-revenue.js` (a single-page sales
dashboard script) and proofs about its view updaters, fetcher and
orchestrator.

Modelling conventions:
* A JavaScript value that may be `undefined`/`null` is an `Option`.
* JavaScript truthiness of field values is made explicit (`jvalTruthy`,
  `jsTruthyStr`): `undefined`, `null`, `''` and `0` are falsy.
* DOM regions are records of the strings written into them; chart
  instances are modelled by an id-based handle state plus the
  configuration the constructor received.
* A thrown `TypeError` is an `Except.error` / a `some` error component.
-/

/-- A JavaScript primitive value as it can appear in a payload field:
a string or a number (numbers in the data are integers). -/
inductive JVal where
  | str (s : String)
  | num (n : Int)
deriving DecidableEq, Repr

/-- String rendering of an integer as JavaScript prints it. -/
def intRepr (n : Int) : String :=
  (if n < 0 then "-" else "") ++ toString n.natAbs

/-- JavaScript string conversion of a `JVal` (as `textContent` assignment
performs). -/
def jvalText : JVal → String
  | .str s => s
  | .num n => intRepr n

/-- JavaScript truthiness of a `JVal`: the empty string and `0` are falsy. -/
def jvalTruthy : JVal → Bool
  | .str s => s ≠ ""
  | .num n => n ≠ 0

/-- Embedding of `a || d` for a possibly-missing field `a` used where the
source writes `data.field || 'default'` and then assigns `textContent`. -/
def jsOr (v : Option JVal) (d : String) : String :=
  match v with
  | some jv => if jvalTruthy jv then jvalText jv else d
  | none => d

/-- JavaScript truthiness of a possibly-missing string: `undefined` and the
empty string are falsy. -/
def jsTruthyStr : Option String → Bool
  | some s => s ≠ ""
  | none => false

/-- String interpolation of a possibly-missing string, as a JavaScript
template literal performs it (`undefined` prints as `"undefined"`). -/
def jsShowOptStr : Option String → String
  | some s => s
  | none => "undefined"

/-- Group a reversed digit list into blocks of three separated by `'.'`,
the `tr-TR` thousands separator. -/
def groupRev : List Char → List Char
  | a :: b :: c :: d :: rest => a :: b :: c :: '.' :: groupRev (d :: rest)
  | l => l

/-- Embedding of `Number.prototype.toLocaleString('tr-TR')` on an integer:
digits grouped in threes with `'.'` separators. -/
def trLocaleString (n : Int) : String :=
  (if n < 0 then "-" else "") ++
    String.mk (groupRev (toString n.natAbs).data.reverse).reverse

/-- A metrics payload; each of the four fields may be missing. -/
structure MetricsSnapshot where
  totalRevenue : Option JVal
  conversionRate : Option JVal
  averageBasket : Option JVal
  totalOrders : Option JVal
deriving DecidableEq, Repr

/-- The four metric target elements (their `textContent`). -/
structure MetricsDom where
  totalRevenue : String
  conversionRate : String
  averageBasket : String
  totalOrders : String
deriving DecidableEq, Repr

/-- Embedding of `updateMetrics` (src/js/sales-revenue.js:61-76): when the
payload is absent nothing is mutated; otherwise each field is written with
its `|| default` fallback. -/
def updateMetrics (data : Option MetricsSnapshot) (dom : MetricsDom) : MetricsDom :=
  match data with
  | none => dom
  | some d =>
    { totalRevenue := jsOr d.totalRevenue "$2.4M"
      conversionRate := jsOr d.conversionRate "3.47%"
      averageBasket := jsOr d.averageBasket "₺347"
      totalOrders := jsOr d.totalOrders "6,847" }

/-- C4: absent payload mutates nothing; a present payload writes all four
fields; a payload with exactly one missing field gets that field's default
and the other three supplied values verbatim. -/
theorem updateMetrics_frame
    (dom : MetricsDom) (s1 s2 s3 s4 : String)
    (h1 : s1 ≠ "") (h2 : s2 ≠ "") (h3 : s3 ≠ "") (h4 : s4 ≠ "") :
    updateMetrics none dom = dom ∧
    updateMetrics (some ⟨some (.str s1), some (.str s2), some (.str s3), some (.str s4)⟩) dom
      = ⟨s1, s2, s3, s4⟩ ∧
    updateMetrics (some ⟨none, some (.str s2), some (.str s3), some (.str s4)⟩) dom
      = ⟨"$2.4M", s2, s3, s4⟩ ∧
    updateMetrics (some ⟨some (.str s1), none, some (.str s3), some (.str s4)⟩) dom
      = ⟨s1, "3.47%", s3, s4⟩ ∧
    updateMetrics (some ⟨some (.str s1), some (.str s2), none, some (.str s4)⟩) dom
      = ⟨s1, s2, "₺347", s4⟩ ∧
    updateMetrics (some ⟨some (.str s1), some (.str s2), some (.str s3), none⟩) dom
      = ⟨s1, s2, s3, "6,847"⟩ := by
  refine ⟨rfl, ?_, ?_, ?_, ?_, ?_⟩ <;>
    simp [updateMetrics, jsOr, jvalTruthy, jvalText, h1, h2, h3, h4]

/-- Witness for `updateMetrics_frame` at concrete inputs. -/
theorem updateMetrics_frame_witness :
    updateMetrics (some ⟨none, some (.str "3%"), some (.str "₺1"), some (.str "9")⟩)
      ⟨"a", "b", "c", "d"⟩ = ⟨"$2.4M", "3%", "₺1", "9"⟩ :=
  (updateMetrics_frame ⟨"a", "b", "c", "d"⟩ "x" "3%" "₺1" "9"
    (by decide) (by decide) (by decide) (by decide)).2.2.1

/-- C10: the default is substituted for any falsy present field value
(empty string, the number 0), not only for a missing field. -/
theorem updateMetrics_falsy_default
    (dom : MetricsDom) (d : MetricsSnapshot) (v : JVal) :
    (d.totalRevenue = some v → jvalTruthy v = false →
      (updateMetrics (some d) dom).totalRevenue = "$2.4M") ∧
    (d.conversionRate = some v → jvalTruthy v = false →
      (updateMetrics (some d) dom).conversionRate = "3.47%") ∧
    (d.averageBasket = some v → jvalTruthy v = false →
      (updateMetrics (some d) dom).averageBasket = "₺347") ∧
    (d.totalOrders = some v → jvalTruthy v = false →
      (updateMetrics (some d) dom).totalOrders = "6,847") := by
  refine ⟨?_, ?_, ?_, ?_⟩ <;>
    intro hv hf <;> simp [updateMetrics, jsOr, hv, hf]

/-- Witness for `updateMetrics_falsy_default`: a present empty-string field
and a present `0` field both yield their defaults. -/
theorem updateMetrics_falsy_default_witness :
    (updateMetrics (some ⟨some (.str ""), some (.str "x"), some (.str "y"), some (.num 0)⟩)
      ⟨"a", "b", "c", "d"⟩).totalRevenue = "$2.4M" ∧
    (updateMetrics (some ⟨some (.num 0), some (.str "x"), some (.str "y"), some (.num 0)⟩)
      ⟨"a", "b", "c", "d"⟩).totalOrders = "6,847" :=
  ⟨(updateMetrics_falsy_default ⟨"a", "b", "c", "d"⟩
      ⟨some (.str ""), some (.str "x"), some (.str "y"), some (.num 0)⟩ (.str "")).1
      rfl (by decide),
   (updateMetrics_falsy_default ⟨"a", "b", "c", "d"⟩
      ⟨some (.num 0), some (.str "x"), some (.str "y"), some (.num 0)⟩ (.num 0)).2.2.2
      rfl (by decide)⟩

/-- A product object from the top-selling-products payload; every field may
individually be missing. The spec's `ProductSummary` is the well-formed
special case in which `name` and `price` are present. -/
structure RawProduct where
  name : Option String
  price : Option Int
  iconUrl : Option String
  iconBgColor : Option String
deriving DecidableEq, Repr

/-- Embedding of `String.prototype.charAt(0)`: the first character as a
one-character string, or the empty string on an empty receiver. -/
def charAt0 (s : String) : String :=
  match s.data with
  | [] => ""
  | c :: _ => String.mk [c]

/-- The pieces of one product card produced by `updateTopSellingProducts`
(src/js/sales-revenue.js:266-274). -/
structure ProductCard where
  iconSrc : String
  altText : String
  bgColor : String
  name : String
  priceText : String
deriving DecidableEq, Repr

/-- The `src` attribute of the card icon:
`product.iconUrl || 'https://via.placeholder.com/60/ccc/fff?text=' + product.name.charAt(0)`.
When `iconUrl` is falsy and `name` is `undefined`, `charAt` throws. -/
def iconSrcOf (p : RawProduct) : Except String String :=
  if jsTruthyStr p.iconUrl then .ok (p.iconUrl.getD "")
  else
    match p.name with
    | none => .error "TypeError: product.name is undefined"
    | some n => .ok ("https://via.placeholder.com/60/ccc/fff?text=" ++ charAt0 n)

/-- The card's price line `₺${product.price.toLocaleString('tr-TR')}`:
calling `toLocaleString` on a missing `price` throws. -/
def priceTextOf (p : RawProduct) : Except String String :=
  match p.price with
  | none => .error "TypeError: product.price is undefined"
  | some pr => .ok ("₺" ++ trLocaleString pr)

/-- Evaluation of one card's template literal, left to right: the icon
`src` first (may throw), then the interpolations that cannot throw, then
the price (may throw). -/
def renderProduct (p : RawProduct) : Except String ProductCard :=
  match iconSrcOf p, priceTextOf p with
  | .ok src, .ok ptext =>
      .ok { iconSrc := src
            altText := jsShowOptStr p.name
            bgColor := if jsTruthyStr p.iconBgColor then p.iconBgColor.getD "" else "#3e2e60"
            name := jsShowOptStr p.name
            priceText := ptext }
  | .error e, _ => .error e
  | .ok _, .error e => .error e

/-- One row of the products container: a product card or the literal
"not found" placeholder. -/
inductive Row where
  | card (c : ProductCard)
  | placeholder (text : String)
deriving DecidableEq, Repr

/-- The `forEach` append loop of `updateTopSellingProducts`: rows appended
so far, plus the error of the first product whose card threw (appending
stops there). -/
def renderLoop : List RawProduct → List Row × Option String
  | [] => ([], none)
  | p :: ps =>
    match renderProduct p with
    | .error e => ([], some e)
    | .ok c =>
      let r := renderLoop ps
      (Row.card c :: r.1, r.2)

/-- Embedding of `updateTopSellingProducts` (src/js/sales-revenue.js:258-280):
the container is cleared, then either one card per product is appended or a
single placeholder row is written. The result is the final container
content together with the escaped exception, if any. -/
def updateTopSellingProducts (products : Option (List RawProduct)) :
    List Row × Option String :=
  match products with
  | some ps =>
    if ps.length > 0 then renderLoop ps
    else ([Row.placeholder "Ürün bulunamadı."], none)
  | none => ([Row.placeholder "Ürün bulunamadı."], none)

/-- Whether rendering one product card succeeds. -/
def renderOk (p : RawProduct) : Bool :=
  match renderProduct p with
  | .ok _ => true
  | .error _ => false

theorem renderOk_iff (p : RawProduct) :
    renderOk p = (p.price.isSome && (jsTruthyStr p.iconUrl || p.name.isSome)) := by
  rcases p with ⟨n, pr, iu, bg⟩
  by_cases hi : jsTruthyStr iu = true <;>
    cases n <;> cases pr <;>
      simp [renderOk, renderProduct, iconSrcOf, priceTextOf, hi]

theorem renderLoop_none_iff (ps : List RawProduct) :
    (renderLoop ps).2 = none ↔ ∀ p ∈ ps, renderOk p = true := by
  induction ps with
  | nil => simp [renderLoop]
  | cons p ps ih =>
    unfold renderLoop renderOk
    cases hr : renderProduct p with
    | error e => simp [hr, renderOk]
    | ok c => simpa [hr, renderOk] using ih

theorem renderLoop_ok (ps : List RawProduct)
    (h : ∀ p ∈ ps, renderOk p = true) :
    (renderLoop ps).2 = none ∧
    (renderLoop ps).1.length = ps.length ∧
    ∀ i (hi : i < ps.length), ∃ c,
      renderProduct (ps.get ⟨i, hi⟩) = .ok c ∧
      (renderLoop ps).1.get? i = some (Row.card c) := by
  induction ps with
  | nil => simp [renderLoop]
  | cons p ps ih =>
    have hp := h p (by simp)
    obtain ⟨c, hc⟩ : ∃ c, renderProduct p = .ok c := by
      revert hp
      unfold renderOk
      cases renderProduct p <;> simp
    obtain ⟨ih1, ih2, ih3⟩ := ih (fun q hq => h q (by simp [hq]))
    refine ⟨?_, ?_, ?_⟩
    · simp [renderLoop, hc, ih1]
    · simp [renderLoop, hc, ih2]
    · intro i hi
      cases i with
      | zero => exact ⟨c, by simp [renderLoop, hc], by simp [renderLoop, hc]⟩
      | succ j =>
        obtain ⟨c', hc', hg⟩ := ih3 j (by exact Nat.lt_of_succ_lt_succ hi)
        exact ⟨c', hc', by simpa [renderLoop, hc] using hg⟩

/-- C2 (counterexample): the products updater is not exception-free on a
present payload with a malformed entry — a single product with a missing
`price` makes `price.toLocaleString` throw, so an exception escapes. -/
theorem updateTopSellingProducts_missing_price_raises :
    ((updateTopSellingProducts
      (some [⟨some "Laptop Pro", none, some "https://x/y.png", none⟩])).2).isSome = true := by
  decide

/-- C2 (amended): `updateTopSellingProducts` lets an exception escape
exactly when some product lacks a `price`, or lacks a `name` while its
`iconUrl` is missing/empty; with a name (or truthy icon URL) and a price on
every product it never raises. -/
theorem updateTopSellingProducts_raises_iff (ps : List RawProduct) :
    (updateTopSellingProducts (some ps)).2 = none ↔
      ∀ p ∈ ps, p.price.isSome = true ∧
        (jsTruthyStr p.iconUrl = true ∨ p.name.isSome = true) := by
  rcases ps with _ | ⟨p, ps⟩
  · simp [updateTopSellingProducts]
  · have hpos : (p :: ps).length > 0 := Nat.succ_pos _
    simp only [updateTopSellingProducts, if_pos hpos]
    rw [renderLoop_none_iff]
    refine forall₂_congr fun q hq => ?_
    rw [renderOk_iff]
    simp [Bool.and_eq_true, Bool.or_eq_true]

/-- Witness for `updateTopSellingProducts_raises_iff`: products that all
have a name and a price raise nothing. -/
theorem updateTopSellingProducts_raises_iff_witness :
    (updateTopSellingProducts
      (some [⟨some "Tablet", some 8750, none, none⟩,
             ⟨some "Kulaklık", some 1250, some "https://x/z.png", some "#9370DB"⟩])).2
      = none :=
  (updateTopSellingProducts_raises_iff
    [⟨some "Tablet", some 8750, none, none⟩,
     ⟨some "Kulaklık", some 1250, some "https://x/z.png", some "#9370DB"⟩]).mpr
    (by decide)

/-- C6: an absent or empty payload renders exactly the single "not found"
placeholder row and no cards; a non-empty sequence of well-formed products
(name and price present) renders exactly one card per product, in order,
with no exception. -/
theorem updateTopSellingProducts_spec (ps : List RawProduct)
    (hne : ps ≠ [])
    (hwf : ∀ p ∈ ps, p.name.isSome = true ∧ p.price.isSome = true) :
    updateTopSellingProducts none = ([Row.placeholder "Ürün bulunamadı."], none) ∧
    updateTopSellingProducts (some []) = ([Row.placeholder "Ürün bulunamadı."], none) ∧
    (updateTopSellingProducts (some ps)).2 = none ∧
    (updateTopSellingProducts (some ps)).1.length = ps.length ∧
    ∀ i (hi : i < ps.length), ∃ c,
      renderProduct (ps.get ⟨i, hi⟩) = .ok c ∧
      (updateTopSellingProducts (some ps)).1.get? i = some (Row.card c) := by
  have hpos : ps.length > 0 := List.length_pos.mpr hne
  have hok : ∀ p ∈ ps, renderOk p = true := by
    intro p hp
    rw [renderOk_iff]
    obtain ⟨hn, hpr⟩ := hwf p hp
    simp [hn, hpr]
  obtain ⟨h1, h2, h3⟩ := renderLoop_ok ps hok
  have hupd : updateTopSellingProducts (some ps) = renderLoop ps := by
    simp [updateTopSellingProducts, if_pos hpos]
  exact ⟨rfl, rfl, by rw [hupd]; exact h1, by rw [hupd]; exact h2,
    fun i hi => by rw [hupd]; exact h3 i hi⟩

/-- Witness for `updateTopSellingProducts_spec` on a one-product list. -/
theorem updateTopSellingProducts_spec_witness :
    (updateTopSellingProducts
      (some [⟨some "Laptop Pro", some 45600, some "https://x/y.png", some "#7B68EE"⟩])).1.length
      = 1 :=
  (updateTopSellingProducts_spec
    [⟨some "Laptop Pro", some 45600, some "https://x/y.png", some "#7B68EE"⟩]
    (by decide) (by decide)).2.2.2.1

theorem renderProduct_placeholder_fields (p : RawProduct) (n : String)
    (card : ProductCard)
    (hiu : jsTruthyStr p.iconUrl = false) (hn : p.name = some n)
    (hcard : renderProduct p = .ok card) :
    card.iconSrc = "https://via.placeholder.com/60/ccc/fff?text=" ++ charAt0 n ∧
    (∀ b, p.iconBgColor = some b → b ≠ "" → card.bgColor = b) ∧
    (p.iconBgColor = none → card.bgColor = "#3e2e60") := by
  have hsrc : iconSrcOf p
      = .ok ("https://via.placeholder.com/60/ccc/fff?text=" ++ charAt0 n) := by
    simp [iconSrcOf, hiu, hn]
  rcases hpt : priceTextOf p with e | t
  · rw [renderProduct, hsrc, hpt] at hcard
    cases hcard
  · rw [renderProduct, hsrc, hpt] at hcard
    cases hcard
    refine ⟨rfl, ?_, ?_⟩
    · intro b hb hbne
      simp [jsTruthyStr, hb, hbne]
    · intro hb
      simp [jsTruthyStr, hb]

/-- C7: in a well-formed product list, every product whose `iconUrl` is
missing (or empty, hence falsy) gets a generated placeholder icon whose
query text is the first character of the product's name, with the product's
`iconBgColor` as background when present (non-empty) and the fixed fallback
color when absent. -/
theorem updateTopSellingProducts_placeholderIcon
    (ps : List RawProduct) (i : Nat) (hi : i < ps.length)
    (hwf : ∀ p ∈ ps, p.name.isSome = true ∧ p.price.isSome = true)
    (n : String) (c : Char) (cs : List Char)
    (hiu : jsTruthyStr (ps.get ⟨i, hi⟩).iconUrl = false)
    (hn : (ps.get ⟨i, hi⟩).name = some n)
    (hd : n.data = c :: cs) :
    ∃ card,
      (updateTopSellingProducts (some ps)).1.get? i = some (Row.card card) ∧
      card.iconSrc = "https://via.placeholder.com/60/ccc/fff?text=" ++ String.mk [c] ∧
      (∀ b, (ps.get ⟨i, hi⟩).iconBgColor = some b → b ≠ "" → card.bgColor = b) ∧
      ((ps.get ⟨i, hi⟩).iconBgColor = none → card.bgColor = "#3e2e60") := by
  have hne : ps ≠ [] := List.ne_nil_of_length_pos (Nat.lt_of_le_of_lt (Nat.zero_le i) hi)
  obtain ⟨-, -, -, -, hget⟩ := updateTopSellingProducts_spec ps hne hwf
  obtain ⟨card, hcard, hrow⟩ := hget i hi
  obtain ⟨hsrc, hbg1, hbg2⟩ :=
    renderProduct_placeholder_fields (ps.get ⟨i, hi⟩) n card hiu hn hcard
  have hchar : charAt0 n = String.mk [c] := by
    simp [charAt0, hd]
  exact ⟨card, hrow, by rw [hsrc, hchar], hbg1, hbg2⟩

/-- Witness for `updateTopSellingProducts_placeholderIcon`: a concrete
product without `iconUrl` gets the placeholder icon labelled with the first
character of its name. -/
theorem updateTopSellingProducts_placeholderIcon_witness :
    ∃ card,
      (updateTopSellingProducts
        (some [⟨some "Kamera", some 15600, none, some "#FF6347"⟩])).1.get? 0
        = some (Row.card card) ∧
      card.iconSrc = "https://via.placeholder.com/60/ccc/fff?text=" ++ String.mk ['K'] := by
  obtain ⟨card, h1, h2, h3, h4⟩ :=
    updateTopSellingProducts_placeholderIcon
      [⟨some "Kamera", some 15600, none, some "#FF6347"⟩] 0 (by decide)
      (by decide) "Kamera" 'K' ['a', 'm', 'e', 'r', 'a']
      (by decide) (by decide) (by decide)
  exact ⟨card, h1, h2⟩

/-- A revenue-trend payload; either array may individually be missing. -/
structure TrendSeries where
  labels : Option (List String)
  values : Option (List Int)
deriving DecidableEq, Repr

/-- A sales-by-channel payload; either array may individually be missing. -/
structure ChannelMix where
  labels : Option (List String)
  values : Option (List Int)
deriving DecidableEq, Repr

/-- Drop trailing `'0'` characters. -/
def stripZeros (l : List Char) : List Char :=
  (l.reverse.dropWhile (· = '0')).reverse

/-- Zero-pad a digit string on the left to three characters. -/
def padTo3 (s : String) : String :=
  if s.length = 1 then "00" ++ s else if s.length = 2 then "0" ++ s else s

/-- JavaScript rendering of `value / 1000` for an integer `value`: the
exact decimal quotient with trailing fraction zeros omitted. -/
def jsDiv1000Str (v : Int) : String :=
  let a := v.natAbs
  let sign := if v < 0 then "-" else ""
  if a % 1000 = 0 then sign ++ toString (a / 1000)
  else sign ++ toString (a / 1000) ++ "."
    ++ String.mk (stripZeros (padTo3 (toString (a % 1000))).data)

/-- The trend chart's y-axis tick callback
(src/js/sales-revenue.js:132-134): `'₺' + (value / 1000) + 'K'`. -/
def trendYTick (value : Int) : String :=
  "₺" ++ jsDiv1000Str value ++ "K"

/-- The trend chart's tooltip label callback
(src/js/sales-revenue.js:151-160): dataset label (or `''`), a `': '`
separator when non-empty, then `'₺' + y.toLocaleString('tr-TR')` when the
parsed y value is not null. -/
def trendTooltipLabel (datasetLabel : Option String) (py : Option Int) : String :=
  let label := if jsTruthyStr datasetLabel then datasetLabel.getD "" else ""
  let label := if label ≠ "" then label ++ ": " else label
  match py with
  | some y => label ++ "₺" ++ trLocaleString y
  | none => label

/-- The channel chart's tooltip label callback
(src/js/sales-revenue.js:216-225): slice label (or `''`), a `': '`
separator when non-empty, then the parsed value with a literal `'%'`. -/
def channelTooltipLabel (ctxLabel : Option String) (parsed : Option Int) : String :=
  let label := if jsTruthyStr ctxLabel then ctxLabel.getD "" else ""
  let label := if label ≠ "" then label ++ ": " else label
  match parsed with
  | some v => label ++ intRepr v ++ "%"
  | none => label

/-- Configuration handed to the line-chart constructor by
`updateRevenueTrendChart` (the parts the claims observe). -/
structure TrendChartConfig where
  labels : List String
  values : List Int
  datasetLabel : String
  yTick : Int → String
  tooltip : Option Int → String

/-- The trend chart configuration built at src/js/sales-revenue.js:87-165;
the tooltip closes over the single dataset's label `'Toplam Gelir'`. -/
def mkTrendConfig (ls : List String) (vs : List Int) : TrendChartConfig :=
  { labels := ls
    values := vs
    datasetLabel := "Toplam Gelir"
    yTick := trendYTick
    tooltip := fun py => trendTooltipLabel (some "Toplam Gelir") py }

/-- The fixed five-entry channel palette (src/js/sales-revenue.js:176-182);
the fifth entry is the grey used "for the others". -/
def channelColors : List String :=
  ["#886FE4", "#E0B8FF", "#6A5ACD", "#9370DB", "#A9A9A9"]

/-- Configuration handed to the doughnut-chart constructor by
`updateSalesByChannelChart` (the parts the claims observe). -/
structure ChannelChartConfig where
  labels : List String
  values : List Int
  backgroundColor : List String
  tooltip : Option String → Option Int → String

/-- One hand-built legend row (src/js/sales-revenue.js:243-251):
`colors[index]` is `undefined` past the end of the colors array. -/
structure LegendRow where
  swatch : Option String
  text : String
deriving DecidableEq, Repr

/-- Embedding of `createChannelLegends` (src/js/sales-revenue.js:240-252):
the legend container is replaced by one row per label, the swatch being
`colors[index]`. -/
def createChannelLegends (labels : List String) (colors : List String) :
    List LegendRow :=
  labels.enum.map fun p => ⟨colors.get? p.1, p.2⟩

/-- Destroy the currently held chart instance, if any, removing it from
the canvas's live set (`if (chart) { chart.destroy(); }`). -/
def destroyHandle (live : List Nat) (handle : Option Nat) : List Nat :=
  match handle with
  | some h => live.erase h
  | none => live

/-- State of the trend canvas: ids of live chart instances bound to it,
the `revenueTrendChart` variable, a fresh-id counter, and the
configuration of the current instance. -/
structure TrendState where
  live : List Nat
  handle : Option Nat
  fresh : Nat
  config : Option TrendChartConfig

/-- State of the channel canvas plus the `channelLegends` container. -/
structure ChannelState where
  live : List Nat
  handle : Option Nat
  fresh : Nat
  config : Option ChannelChartConfig
  legends : List LegendRow

/-- Page-load state: `let revenueTrendChart;` leaves the handle undefined
and no instance exists. -/
def initTrendState : TrendState := ⟨[], none, 0, none⟩

/-- Page-load state of the channel canvas and legend container. -/
def initChannelState : ChannelState := ⟨[], none, 0, none, []⟩

/-- Embedding of `updateRevenueTrendChart` (src/js/sales-revenue.js:82-167):
with absent data or a missing `labels`/`values` field nothing happens;
otherwise the held instance is destroyed and a new line chart is
constructed from the data. -/
def updateRevenueTrendChart (data : Option TrendSeries) (s : TrendState) :
    TrendState :=
  match data with
  | none => s
  | some d =>
    match d.labels, d.values with
    | some ls, some vs =>
      { live := s.fresh :: destroyHandle s.live s.handle
        handle := some s.fresh
        fresh := s.fresh + 1
        config := some (mkTrendConfig ls vs) }
    | _, _ => s

/-- Embedding of `updateSalesByChannelChart` (src/js/sales-revenue.js:173-233):
with absent data or a missing `labels`/`values` field nothing happens;
otherwise the held instance is destroyed, a doughnut chart is constructed
with `channelColors.slice(0, labels.length)` as slice colors, and the
legend container is rebuilt with the same sliced colors. -/
def updateSalesByChannelChart (data : Option ChannelMix) (s : ChannelState) :
    ChannelState :=
  match data with
  | none => s
  | some d =>
    match d.labels, d.values with
    | some ls, some vs =>
      { live := s.fresh :: destroyHandle s.live s.handle
        handle := some s.fresh
        fresh := s.fresh + 1
        config := some
          { labels := ls
            values := vs
            backgroundColor := channelColors.take ls.length
            tooltip := channelTooltipLabel }
        legends := createChannelLegends ls (channelColors.take ls.length) }
    | _, _ => s

/-- A canvas is well formed when the live instances bound to it are exactly
the one the handle variable holds (if any), and all ids are below the
fresh-id counter. -/
def chartWF (live : List Nat) (handle : Option Nat) (fresh : Nat) : Prop :=
  live = handle.elim [] (fun h => [h]) ∧ ∀ j ∈ live, j < fresh

theorem chartWF_length_le_one (live : List Nat) (handle : Option Nat)
    (fresh : Nat) (hwf : chartWF live handle fresh) : live.length ≤ 1 := by
  obtain ⟨hl, -⟩ := hwf
  rw [hl]
  cases handle <;> simp [Option.elim]

theorem chartWF_destroyCreate (live : List Nat) (handle : Option Nat)
    (fresh : Nat) (hwf : chartWF live handle fresh) :
    chartWF (fresh :: destroyHandle live handle) (some fresh) (fresh + 1) := by
  obtain ⟨hl, hb⟩ := hwf
  cases handle with
  | none =>
    simp only [Option.elim] at hl
    subst hl
    exact ⟨rfl, by intro j hj; simp [destroyHandle] at hj; omega⟩
  | some h =>
    simp only [Option.elim] at hl
    subst hl
    refine ⟨?_, ?_⟩
    · simp [destroyHandle, Option.elim]
    · intro j hj
      simp [destroyHandle] at hj
      omega

/-- C5: for both chart updaters, well-formedness (at most one live
instance bound to the canvas, that of the handle) is preserved by every
call, so at most one live instance remains after any successive calls;
absent or incomplete data is a strict no-op; a call with complete data
leaves exactly the newly created instance live and the previously held
instance destroyed (superseded). -/
theorem chartHandles_single_instance :
    (∀ (d : Option TrendSeries) (s : TrendState),
      chartWF s.live s.handle s.fresh →
        chartWF (updateRevenueTrendChart d s).live
          (updateRevenueTrendChart d s).handle
          (updateRevenueTrendChart d s).fresh ∧
        (updateRevenueTrendChart d s).live.length ≤ 1) ∧
    (∀ s : TrendState, updateRevenueTrendChart none s = s) ∧
    (∀ (d : TrendSeries) (s : TrendState), d.labels = none ∨ d.values = none →
      updateRevenueTrendChart (some d) s = s) ∧
    (∀ (ls : List String) (vs : List Int) (s : TrendState) (h0 : Nat),
      chartWF s.live s.handle s.fresh → s.handle = some h0 →
        (updateRevenueTrendChart (some ⟨some ls, some vs⟩) s).live = [s.fresh] ∧
        h0 ∉ (updateRevenueTrendChart (some ⟨some ls, some vs⟩) s).live) ∧
    (∀ (d : Option ChannelMix) (s : ChannelState),
      chartWF s.live s.handle s.fresh →
        chartWF (updateSalesByChannelChart d s).live
          (updateSalesByChannelChart d s).handle
          (updateSalesByChannelChart d s).fresh ∧
        (updateSalesByChannelChart d s).live.length ≤ 1) ∧
    (∀ s : ChannelState, updateSalesByChannelChart none s = s) ∧
    (∀ (d : ChannelMix) (s : ChannelState), d.labels = none ∨ d.values = none →
      updateSalesByChannelChart (some d) s = s) ∧
    (∀ (ls : List String) (vs : List Int) (s : ChannelState) (h0 : Nat),
      chartWF s.live s.handle s.fresh → s.handle = some h0 →
        (updateSalesByChannelChart (some ⟨some ls, some vs⟩) s).live = [s.fresh] ∧
        h0 ∉ (updateSalesByChannelChart (some ⟨some ls, some vs⟩) s).live) := by
  have hsup : ∀ (live : List Nat) (handle : Option Nat) (fresh h0 : Nat),
      chartWF live handle fresh → handle = some h0 →
        fresh :: destroyHandle live handle = [fresh] ∧
        h0 ∉ fresh :: destroyHandle live handle := by
    intro live handle fresh h0 hwf hh
    obtain ⟨hl, hb⟩ := hwf
    subst hh
    simp only [Option.elim] at hl
    subst hl
    have hlt : h0 < fresh := hb h0 (by simp)
    refine ⟨by simp [destroyHandle], ?_⟩
    simp [destroyHandle]
    omega
  refine ⟨?_, fun s => rfl, ?_, ?_, ?_, fun s => rfl, ?_, ?_⟩
  · intro d s hwf
    rcases d with _ | ⟨dl, dv⟩
    · exact ⟨hwf, chartWF_length_le_one _ _ _ hwf⟩
    · rcases dl with _ | ls
      · rcases dv with _ | vs <;>
          exact ⟨hwf, chartWF_length_le_one _ _ _ hwf⟩
      · rcases dv with _ | vs
        · exact ⟨hwf, chartWF_length_le_one _ _ _ hwf⟩
        · have hwf' := chartWF_destroyCreate s.live s.handle s.fresh hwf
          exact ⟨hwf', chartWF_length_le_one _ _ _ hwf'⟩
  · intro d s hd
    rcases d with ⟨dl, dv⟩
    rcases dl with _ | ls
    · rcases dv with _ | vs <;> rfl
    · rcases dv with _ | vs
      · rfl
      · simp at hd
  · intro ls vs s h0 hwf hh
    exact hsup s.live s.handle s.fresh h0 hwf hh
  · intro d s hwf
    rcases d with _ | ⟨dl, dv⟩
    · exact ⟨hwf, chartWF_length_le_one _ _ _ hwf⟩
    · rcases dl with _ | ls
      · rcases dv with _ | vs <;>
          exact ⟨hwf, chartWF_length_le_one _ _ _ hwf⟩
      · rcases dv with _ | vs
        · exact ⟨hwf, chartWF_length_le_one _ _ _ hwf⟩
        · have hwf' := chartWF_destroyCreate s.live s.handle s.fresh hwf
          exact ⟨hwf', chartWF_length_le_one _ _ _ hwf'⟩
  · intro d s hd
    rcases d with ⟨dl, dv⟩
    rcases dl with _ | ls
    · rcases dv with _ | vs <;> rfl
    · rcases dv with _ | vs
      · rfl
      · simp at hd
  · intro ls vs s h0 hwf hh
    exact hsup s.live s.handle s.fresh h0 hwf hh

/-- Witness for `chartHandles_single_instance`: two successive complete
calls from the page-load state leave one live instance, and the second
call's state no longer contains the first instance. -/
theorem chartHandles_single_instance_witness :
    (updateRevenueTrendChart (some ⟨some ["Şub"], some [380000]⟩)
      (updateRevenueTrendChart (some ⟨some ["Oca"], some [350000]⟩)
        initTrendState)).live.length ≤ 1 :=
  (chartHandles_single_instance.1 (some ⟨some ["Şub"], some [380000]⟩)
    (updateRevenueTrendChart (some ⟨some ["Oca"], some [350000]⟩) initTrendState)
    (chartHandles_single_instance.1 (some ⟨some ["Oca"], some [350000]⟩)
      initTrendState ⟨rfl, by simp [initTrendState]⟩).1).2

/-- C1 (counterexample): with six labels, the label beyond the fifth does
NOT receive the designated overflow color: `slice(0, 6)` of the
five-entry palette still has five entries, so the sixth slice gets no
palette color and the sixth legend swatch is `undefined`. -/
theorem channelChart_overflow_counterexample :
    ((updateSalesByChannelChart
        (some ⟨some ["Web Sitesi", "Mobil App", "Sosyal Medya", "Mağaza", "Pazaryeri", "Bayi"],
              some [30, 20, 15, 15, 10, 10]⟩)
        initChannelState).legends.map LegendRow.swatch)
      = [some "#886FE4", some "#E0B8FF", some "#6A5ACD", some "#9370DB",
         some "#A9A9A9", none] ∧
    ((updateSalesByChannelChart
        (some ⟨some ["Web Sitesi", "Mobil App", "Sosyal Medya", "Mağaza", "Pazaryeri", "Bayi"],
              some [30, 20, 15, 15, 10, 10]⟩)
        initChannelState).config.map fun cfg => cfg.backgroundColor)
      = some ["#886FE4", "#E0B8FF", "#6A5ACD", "#9370DB", "#A9A9A9"] := by
  constructor <;> rfl

/-- C1 (amended): the slice colors are the first `min N 5` palette entries
in order — for `N ≤ 4` the first `N` entries, and the fifth (overflow)
color goes to the fifth label when `N ≥ 5` — while any label at index five
or beyond receives no palette color at all; the legend swatches follow the
same assignment, label by label. -/
theorem channelChart_color_assignment (ls : List String) (vs : List Int)
    (s : ChannelState) :
    ∃ cfg,
      (updateSalesByChannelChart (some ⟨some ls, some vs⟩) s).config = some cfg ∧
      cfg.backgroundColor = channelColors.take ls.length ∧
      (∀ i, i < ls.length → i < 5 →
        cfg.backgroundColor.get? i = channelColors.get? i) ∧
      (4 < ls.length → cfg.backgroundColor.get? 4 = some "#A9A9A9") ∧
      (∀ i, 5 ≤ i → cfg.backgroundColor.get? i = none) ∧
      (updateSalesByChannelChart (some ⟨some ls, some vs⟩) s).legends
        = ls.enum.map fun p => ⟨cfg.backgroundColor.get? p.1, p.2⟩ := by
  refine ⟨_, rfl, rfl, ?_, ?_, ?_, rfl⟩
  · intro i h1 h2
    rw [List.get?_eq_getElem?, List.get?_eq_getElem?]
    exact List.getElem?_take_of_lt h1
  · intro h
    rw [List.get?_eq_getElem?, List.getElem?_take_of_lt h]
    rfl
  · intro i h
    refine List.get?_eq_none.mpr ?_
    rw [List.length_take]
    have h5 : channelColors.length = 5 := rfl
    omega

/-- Witness for `channelChart_color_assignment`: with five labels the
fifth slice gets the overflow color. -/
theorem channelChart_color_assignment_witness :
    ((updateSalesByChannelChart
        (some ⟨some ["A", "B", "C", "D", "E"], some [20, 20, 20, 20, 20]⟩)
        initChannelState).config.map fun cfg => cfg.backgroundColor.get? 4)
      = some (some "#A9A9A9") := by
  obtain ⟨cfg, h1, -, -, h4, -, -⟩ :=
    channelChart_color_assignment ["A", "B", "C", "D", "E"] [20, 20, 20, 20, 20]
      initChannelState
  rw [h1]
  show some (cfg.backgroundColor.get? 4) = some (some "#A9A9A9")
  exact congrArg some (h4 (by norm_num))

theorem jsDiv1000Str_exact (k : Nat) :
    jsDiv1000Str ((1000 * k : Nat) : Int) = toString k := by
  have h0 : ¬ (((1000 * k : Nat) : Int) < 0) := by omega
  have h1 : ((1000 * k : Nat) : Int).natAbs = 1000 * k := Int.natAbs_ofNat _
  have hm : 1000 * k % 1000 = 0 := by omega
  have hd : 1000 * k / 1000 = k := by omega
  simp only [jsDiv1000Str, h1, hm, hd, if_neg h0, eq_self_iff_true, if_true]
  rfl

/-- C9: the chart built by `updateRevenueTrendChart` formats every y-axis
tick as `'₺' + (value / 1000) + 'K'` — in particular `₺vK` with the raw
value divided by 1000 exactly when the value is a multiple of 1000 — and
every tooltip value as the raw data value with `tr-TR` thousands
separators prefixed by the currency symbol, after the dataset label. -/
theorem trendChart_formatting (ls : List String) (vs : List Int)
    (s : TrendState) :
    ∃ cfg,
      (updateRevenueTrendChart (some ⟨some ls, some vs⟩) s).config = some cfg ∧
      cfg.datasetLabel = "Toplam Gelir" ∧
      (∀ v : Int, cfg.yTick v = "₺" ++ jsDiv1000Str v ++ "K") ∧
      (∀ k : Nat, cfg.yTick ((1000 * k : Nat) : Int) = "₺" ++ toString k ++ "K") ∧
      (∀ y : Int, cfg.tooltip (some y) = "Toplam Gelir: ₺" ++ trLocaleString y) := by
  refine ⟨_, rfl, rfl, fun v => rfl, ?_, ?_⟩
  · intro k
    show trendYTick _ = _
    rw [trendYTick, jsDiv1000Str_exact]
  · intro y
    rfl

/-- Witness for `trendChart_formatting` at the mock trend data: the
350000 tick renders as `₺350K` and the 450000 tooltip as
`Toplam Gelir: ₺450.000`. -/
theorem trendChart_formatting_witness :
    ((updateRevenueTrendChart (some ⟨some ["Oca", "Şub"], some [350000, 380000]⟩)
        initTrendState).config.map
        fun cfg => (cfg.yTick 350000, cfg.tooltip (some 450000)))
      = some ("₺350K", "Toplam Gelir: ₺450.000") := by
  obtain ⟨cfg, h1, -, hv, -, ht⟩ :=
    trendChart_formatting ["Oca", "Şub"] [350000, 380000] initTrendState
  rw [h1]
  show some (cfg.yTick 350000, cfg.tooltip (some 450000)) = _
  rw [hv 350000, ht 450000]
  decide

/-- Whether a character list starts with `pat`. -/
def hasPrefixL : List Char → List Char → Bool
  | [], _ => true
  | _ :: _, [] => false
  | a :: as, b :: bs => a == b && hasPrefixL as bs

/-- Whether a character list contains `pat` as a contiguous run. -/
def hasSubstrL (pat : List Char) : List Char → Bool
  | [] => hasPrefixL pat []
  | c :: rest => hasPrefixL pat (c :: rest) || hasSubstrL pat rest

/-- Embedding of `url.includes(mockUrl)`. -/
def strIncludes (s pat : String) : Bool :=
  hasSubstrL pat.data s.data

/-- A payload, as held by `MOCK_API_RESPONSES`: one of the four resource
shapes. -/
inductive Payload where
  | metrics (m : MetricsSnapshot)
  | trend (t : TrendSeries)
  | channel (c : ChannelMix)
  | products (ps : List RawProduct)
deriving DecidableEq, Repr

/-- The four endpoint URLs (src/js/sales-revenue.js:3-8). -/
structure ApiEndpointsT where
  metrics : String
  revenueTrend : String
  salesByChannel : String
  topSellingProducts : String

/-- `API_ENDPOINTS` from the source. -/
def API_ENDPOINTS : ApiEndpointsT :=
  { metrics := "https://api.example.com/dashboard/metrics"
    revenueTrend := "https://api.example.com/dashboard/revenue-trend"
    salesByChannel := "https://api.example.com/dashboard/sales-by-channel"
    topSellingProducts := "https://api.example.com/dashboard/top-selling-products" }

/-- `MOCK_API_RESPONSES` (src/js/sales-revenue.js:313-370), in key
insertion order. The metrics entry's percent-change fields are not read by
any updater and are not modelled. -/
def MOCK_API_RESPONSES : List (String × Payload) :=
  [("/dashboard/metrics",
    .metrics ⟨some (.str "₺2.4M"), some (.str "3.47%"),
              some (.str "₺347"), some (.str "6,847")⟩),
   ("/dashboard/revenue-trend",
    .trend ⟨some ["Oca", "Şub", "Mar", "Nis", "May", "Haz"],
            some [350000, 380000, 360000, 420000, 450000, 480000]⟩),
   ("/dashboard/sales-by-channel",
    .channel ⟨some ["Web Sitesi", "Mobil App", "Sosyal Medya", "Mağaza"],
              some [40, 25, 20, 15]⟩),
   ("/dashboard/top-selling-products",
    .products
      [⟨some "Laptop Pro", some 45600,
        some "https://via.placeholder.com/60/7B68EE/FFFFFF?text=L", some "#7B68EE"⟩,
       ⟨some "Akıllı Telefon", some 28900,
        some "https://via.placeholder.com/60/66CDAA/FFFFFF?text=T", some "#66CDAA"⟩,
       ⟨some "Kulaklık", some 1250,
        some "https://via.placeholder.com/60/9370DB/FFFFFF?text=H", some "#9370DB"⟩,
       ⟨some "Tablet", some 8750,
        some "https://via.placeholder.com/60/ADD8E6/FFFFFF?text=B", some "#ADD8E6"⟩,
       ⟨some "Kamera", some 15600,
        some "https://via.placeholder.com/60/FF6347/FFFFFF?text=C", some "#FF6347"⟩,
       ⟨some "Akıllı Saat", some 7200,
        some "https://via.placeholder.com/60/FFD700/FFFFFF?text=W", some "#FFD700"⟩])]

/-- Embedding of `fetchData` (src/js/sales-revenue.js:35-55): the first
mock key that is a substring of the url yields its payload; otherwise the
absent sentinel `none` is returned. Any error is caught and also turned
into `none`, so the result is total: a plain `Option`, never a rejection. -/
def fetchData (url : String) : Option Payload :=
  (MOCK_API_RESPONSES.find? fun kv => strIncludes url kv.1).map Prod.snd

/-- C3: for every url, when exactly one mock entry is registered for it
(its key occurs in the url) the returned promise resolves to that entry's
payload; any match resolves to the payload of an entry registered for the
url; and when no entry matches it resolves to the absent sentinel. Being a
total `Option`, it never rejects. -/
theorem fetchData_contract (url : String) :
    (∀ kv ∈ MOCK_API_RESPONSES, strIncludes url kv.1 = true →
      (∀ kv' ∈ MOCK_API_RESPONSES, kv' ≠ kv → strIncludes url kv'.1 = false) →
      fetchData url = some kv.2) ∧
    ((∃ kv ∈ MOCK_API_RESPONSES, strIncludes url kv.1 = true) →
      ∃ kv ∈ MOCK_API_RESPONSES, strIncludes url kv.1 = true ∧
        fetchData url = some kv.2) ∧
    ((∀ kv ∈ MOCK_API_RESPONSES, strIncludes url kv.1 = false) →
      fetchData url = none) := by
  refine ⟨?_, ?_, ?_⟩
  · intro kv hmem hinc huniq
    rcases ho : MOCK_API_RESPONSES.find? fun kv => strIncludes url kv.1 with _ | kv'
    · rw [List.find?_eq_none] at ho
      exact absurd hinc (by simpa using ho kv hmem)
    · have hp : strIncludes url kv'.1 = true := by
        simpa using List.find?_some ho
      have hmem' : kv' ∈ MOCK_API_RESPONSES := List.mem_of_find?_eq_some ho
      have hkv : kv' = kv := by
        by_contra hne
        rw [huniq kv' hmem' hne] at hp
        cases hp
      subst hkv
      simp [fetchData, ho]
  · rintro ⟨kv, hmem, hinc⟩
    have hs : (MOCK_API_RESPONSES.find? fun kv => strIncludes url kv.1).isSome := by
      rw [List.find?_isSome]
      exact ⟨kv, hmem, hinc⟩
    rcases ho : MOCK_API_RESPONSES.find? fun kv => strIncludes url kv.1 with _ | kv'
    · rw [ho] at hs
      cases hs
    · refine ⟨kv', List.mem_of_find?_eq_some ho, ?_, by simp [fetchData, ho]⟩
      simpa using List.find?_some ho
  · intro h
    have hn : (MOCK_API_RESPONSES.find? fun kv => strIncludes url kv.1) = none := by
      rw [List.find?_eq_none]
      intro x hx
      simp [h x hx]
    simp [fetchData, hn]

/-- Witness for `fetchData_contract`: the metrics endpoint url matches
exactly the metrics entry and resolves to the registered metrics payload;
an unregistered url resolves to the absent sentinel. -/
theorem fetchData_contract_witness :
    fetchData "https://api.example.com/dashboard/metrics"
      = some (Payload.metrics ⟨some (.str "₺2.4M"), some (.str "3.47%"),
              some (.str "₺347"), some (.str "6,847")⟩) ∧
    fetchData "https://nowhere.example.com/none" = none :=
  ⟨(fetchData_contract "https://api.example.com/dashboard/metrics").1
      ("/dashboard/metrics",
        Payload.metrics ⟨some (.str "₺2.4M"), some (.str "3.47%"),
          some (.str "₺347"), some (.str "6,847")⟩)
      (by decide) (by decide) (by decide),
   (fetchData_contract "https://nowhere.example.com/none").2.2 (by decide)⟩

/-- One of the four logical resources. -/
inductive Resource where
  | metrics
  | revenueTrend
  | salesByChannel
  | topSellingProducts
deriving DecidableEq, Repr

/-- An observable step of the orchestrator: an awaited fetch (with its
settled result) or an updater call (with the data it received). -/
inductive Event where
  | fetchEv (url : String) (result : Option Payload)
  | updateEv (r : Resource) (data : Option Payload)
deriving DecidableEq, Repr

/-- Embedding of `loadDashboardData` (src/js/sales-revenue.js:283-299) as
the trace of its awaited fetches and updater calls, in program order: each
fetch is awaited to completion before its update runs and before the next
fetch starts; the channel update alone is guarded by
`if (salesByChannelData)`. -/
def loadDashboardData (env : String → Option Payload) : List Event :=
  let metricsData := env API_ENDPOINTS.metrics
  let revenueTrendData := env API_ENDPOINTS.revenueTrend
  let salesByChannelData := env API_ENDPOINTS.salesByChannel
  let topSellingProductsData := env API_ENDPOINTS.topSellingProducts
  [Event.fetchEv API_ENDPOINTS.metrics metricsData,
   Event.updateEv Resource.metrics metricsData] ++
  [Event.fetchEv API_ENDPOINTS.revenueTrend revenueTrendData,
   Event.updateEv Resource.revenueTrend revenueTrendData] ++
  ([Event.fetchEv API_ENDPOINTS.salesByChannel salesByChannelData] ++
    match salesByChannelData with
    | some _ => [Event.updateEv Resource.salesByChannel salesByChannelData]
    | none => []) ++
  [Event.fetchEv API_ENDPOINTS.topSellingProducts topSellingProductsData,
   Event.updateEv Resource.topSellingProducts topSellingProductsData]

/-- C8: run against the program's own fetcher, the orchestrator performs
exactly the four fetch-then-update pairs in the fixed order metrics,
trend, channel-mix, products — every fetch settled before the next —
and its trace ends after the fourth update: eight events, no repetition,
no retry. -/
theorem loadDashboardData_sequence :
    loadDashboardData fetchData =
      [Event.fetchEv API_ENDPOINTS.metrics (fetchData API_ENDPOINTS.metrics),
       Event.updateEv Resource.metrics (fetchData API_ENDPOINTS.metrics),
       Event.fetchEv API_ENDPOINTS.revenueTrend (fetchData API_ENDPOINTS.revenueTrend),
       Event.updateEv Resource.revenueTrend (fetchData API_ENDPOINTS.revenueTrend),
       Event.fetchEv API_ENDPOINTS.salesByChannel (fetchData API_ENDPOINTS.salesByChannel),
       Event.updateEv Resource.salesByChannel (fetchData API_ENDPOINTS.salesByChannel),
       Event.fetchEv API_ENDPOINTS.topSellingProducts (fetchData API_ENDPOINTS.topSellingProducts),
       Event.updateEv Resource.topSellingProducts (fetchData API_ENDPOINTS.topSellingProducts)] ∧
    (loadDashboardData fetchData).length = 8 ∧
    (∃ c, fetchData API_ENDPOINTS.salesByChannel = some (Payload.channel c)) := by
  refine ⟨?_, ?_, ?_⟩
  · rfl
  · rfl
  · exact ⟨⟨some ["Web Sitesi", "Mobil App", "Sosyal Medya", "Mağaza"],
      some [40, 25, 20, 15]⟩, by decide⟩
